import Mathlib

/-!
Verification development for the signal-to-order pipeline of a
margin-trading webhook service.  The embedding models, from the source:

* `app/services/symbols.py`       — symbol normalization
* `app/services/order_sizing.py`  — `round_step` and the quantity math
* `app/services/webhook_queue.py` — `WebhookQueue.enqueue` and the
                                    background DB write `_write_to_db_async`
* `app/services/webhook_worker.py`— the retry handler of `_worker_loop`,
                                    `recover_pending_webhooks`, `start`
* `app/routers/webhook.py`        — `_enqueue_webhook` (intake),
                                    `update_endpoint_position` (ledger),
                                    `process_webhook_request` (execution)

Python strings are modelled as lists of characters (`PyStr`), Python
floats as exact rationals, with the fixed-precision string re-rendering
of quantities modelled explicitly (round-half-to-even at the derived
number of decimals, matching the format spec used by the source).
Exchange and database calls are modelled by their recorded outcomes
(`ExCall`), so the processing routine becomes a pure function of those
outcomes.  Python exceptions that a routine catches are part of the
branch structure; an exception that escapes the routine is the `raised`
flag of the result.
-/

/-! ## Python strings as character lists -/

abbrev PyStr := List Char

/-- Python str.upper, character-wise (inputs are ASCII). -/
def upperize (s : PyStr) : PyStr := s.map Char.toUpper

def isSpaceCh (c : Char) : Bool := c = ' ' || c = '\t' || c = '\n' || c = '\r'

/-- Python str.strip for ASCII whitespace. -/
def stripWs (s : PyStr) : PyStr :=
  ((s.dropWhile isSpaceCh).reverse.dropWhile isSpaceCh).reverse

/-- Everything after the first colon: models s.split(":", 1)[1]. -/
def afterFirstColon : PyStr → PyStr
  | [] => []
  | c :: rest => if c = ':' then rest else afterFirstColon rest

/-- Python str.endswith. -/
def endsWith (s suf : PyStr) : Bool := suf.isSuffixOf s

/-- Python s[:-n]. -/
def dropRightN (s : PyStr) (n : Nat) : PyStr := s.take (s.length - n)

def startsWithCh (s pat : PyStr) : Bool :=
  decide (s.take pat.length = pat)

/-- Python str.replace: replace every non-overlapping occurrence, left
to right.  Fuel-based recursion; fuel = length of the string suffices. -/
def replaceAll (s pat rep : PyStr) (fuel : Nat) : PyStr :=
  match fuel, s with
  | 0, s => s
  | _, [] => []
  | fuel+1, c :: rest =>
    if startsWithCh (c :: rest) pat ∧ pat ≠ [] then
      rep ++ replaceAll ((c :: rest).drop pat.length) pat rep fuel
    else
      c :: replaceAll rest pat rep fuel

/-- Embedding of normalize_tv_symbol (app/services/symbols.py).  The
source checks the three plain suffixes in order (".P", ".PERP", "PERP"),
then the two replacement targets ("-PERP", "USDTPERP") in order, each
guarded by endswith and applied with str.replace. -/
def normalize_tv_symbol (tv : PyStr) : PyStr :=
  if tv.isEmpty then tv else
  let s := upperize (stripWs tv)
  let s := if s.contains ':' then afterFirstColon s else s
  let s := if endsWith s ".P".data then dropRightN s 2 else s
  let s := if endsWith s ".PERP".data then dropRightN s 5 else s
  let s := if endsWith s "PERP".data then dropRightN s 4 else s
  let s := if endsWith s "-PERP".data then replaceAll s "-PERP".data "USDT".data s.length else s
  let s := if endsWith s "USDTPERP".data then replaceAll s "USDTPERP".data "USDT".data s.length else s
  s

/-! ## Quantity rounding and fixed-precision re-rendering
(app/services/order_sizing.py and the sizing block of
app/routers/webhook.py) -/

/-- Embedding of round_step (app/services/order_sizing.py): floor the
value to a multiple of the step; a zero step returns the value. -/
def round_step (value step : ℚ) : ℚ :=
  if step = 0 then value else (⌊value / step⌋ : ℚ) * step

/-- Round a rational to the nearest integer, ties to even — the rounding
used by the fixed-precision format of Python floats. -/
def roundHalfEven (q : ℚ) : ℤ :=
  let f := ⌊q⌋
  let r := q - (f : ℚ)
  if r < 1/2 then f
  else if 1/2 < r then f + 1
  else if f % 2 = 0 then f else f + 1

/-- Count the trailing decimal zeros of an integer (bounded by fuel);
a zero input counts none. -/
def trailingZeroCount (n : ℤ) : ℕ → ℕ
  | 0 => 0
  | fuel+1 => if n % 10 = 0 ∧ n ≠ 0 then trailingZeroCount (n / 10) fuel + 1 else 0

/-- Number of decimals of the step after it is rendered with eight
decimal places and the trailing zeros are stripped — the precision the
source derives from the step string (lines 400-403): zero when nothing
remains after the decimal dot. -/
def precisionOf (step : ℚ) : ℕ :=
  let n := roundHalfEven (step * 10^8)
  if n = 0 then 0 else 8 - min 8 (trailingZeroCount n 8)

/-- Fixed-precision decimal re-rendering: the value of the string
produced by formatting q with p decimal places. -/
def formatPrec (q : ℚ) (p : ℕ) : ℚ :=
  ((roundHalfEven (q * 10^p) : ℤ) : ℚ) / 10^p

/-- The step actually used by the sizing block: a falsy (zero) stepSize
from the exchange filters is replaced by 0.0001. -/
def stepOf (stepSize : ℚ) : ℚ := if stepSize = 0 then 1/10000 else stepSize

/-- The quantity computation of the sizing block
(app/routers/webhook.py, lines 393-406):
  notional = trade_amount_usdt * max(1, leverage)
  base_qty = round_step (notional / price) step
  order_qty = float of base_qty formatted at the step-derived precision. -/
def computeOrderQty (trade_amount_usdt : ℚ) (lev : ℤ) (price step : ℚ) : ℚ :=
  let notional := trade_amount_usdt * (lev : ℚ)
  let base_qty := notional / price
  let base_qty := round_step base_qty step
  formatPrec base_qty (precisionOf step)

/-! ## Data model -/

/-- Lot filters for one symbol, the relevant part of the
get_symbol_filters result. -/
structure Filters where
  minQty : ℚ
  stepSize : ℚ

/-- One EndpointPosition row: the per-channel per-symbol ledger record. -/
structure Position where
  side : String
  qty : ℚ
  entry_price : Option ℚ

/-- One EndpointConfig row. -/
structure EndpointConfig where
  trade_amount_usd : ℚ
  multiplier : ℚ
  leverage : Option ℤ
  enabled : Bool

/-- The settings the processing routine reads. -/
structure Settings where
  dry_run : Bool
  has_api_keys : Bool
  default_leverage : Option ℤ

/-- Outcome of an exchange or storage call: a value, or a raised error
that the caller catches. -/
inductive ExCall (α : Type) where
  | ok (v : α)
  | err
deriving DecidableEq

/-- Outcome of the set_margin_type call.  The source swallows a
non-HTTP failure and an HTTP failure with code -4046 (benign), but
re-raises any other HTTP failure, which then escapes the routine. -/
inductive MarginTypeOutcome where
  | ok
  | benign
  | escalate
deriving DecidableEq

/-- Recorded outcomes of every external call the processing routine can
make, in source order.  position_risk carries the maxNotionalValue of
the matching positionRisk entry (none when no entry matches);
place_order carries the orderId of the response (none when the response
has no orderId). -/
structure Env where
  exchange_info : ExCall Filters
  position_mode : ExCall Bool
  set_position_mode : ExCall Unit
  balance : ExCall ℚ
  ticker_price : ExCall ℚ
  close_order : ExCall Unit
  position_risk : ExCall (Option ℚ)
  set_leverage : ExCall Unit
  set_margin_type : MarginTypeOutcome
  place_order : ExCall (Option ℕ)

/-- Externally visible effects of one processing run, in order: orders
submitted to the exchange and writes to the ledger. -/
inductive Effect where
  | close_order (side : String) (qty : ℚ) (reduce_only : Bool)
  | ledger_delete
  | new_order (side : String) (qty : ℚ)
  | ledger_upsert (side : String) (qty : ℚ)

/-- Result of one run of process_webhook_request: the returned dict
(success, order_id, error), the last status written for the queue item,
the effect trace, the final ledger record for this channel+symbol, and
whether the bracket warning was set.  raised means an exception escaped
the routine (the worker loop then sees it). -/
structure RunResult where
  raised : Bool
  success : Bool
  order_id : Option ℕ
  error : Option String
  status : Option String
  actions : List Effect
  ledger : Option Position
  bracket_warn : Bool

/-! ## The processing routine (app/routers/webhook.py, process_webhook_request) -/

/-- Direction-token mapping of the processing routine (lines 247-253):
the token, already upper-cased, resolves to (side, new_position_side). -/
def mapSignal (su : PyStr) : Option (String × String) :=
  if su = "AL".data ∨ su = "BUY".data ∨ su = "LONG".data then some ("BUY", "LONG")
  else if su = "SAT".data ∨ su = "SELL".data ∨ su = "SHORT".data then some ("SELL", "SHORT")
  else none

/-- The same-direction skip test (lines 279-280): a ledger position with
positive quantity whose side equals the new position side. -/
def sameDirectionSkip (dbPos : Option Position) (nps : String) : Bool :=
  match dbPos with
  | some p => decide (0 < p.qty ∧ p.side = nps)
  | none => false

/-- The opposite-position test (lines 425-430). -/
def oppositeDetected (dbPos : Option Position) (side : String) : Bool :=
  match dbPos with
  | some p => decide (0 < p.qty ∧
      ((side = "BUY" ∧ p.side = "SHORT") ∨ (side = "SELL" ∧ p.side = "LONG")))
  | none => false

/-- Position-mode resolution (lines 323-348): a failed read means
one-way; outside dry-run a dual account is forced to one-way, and a
failure of that change is fatal for the item. -/
def resolveDual (s : Settings) (env : Env) : ExCall Bool :=
  let dual0 := match env.position_mode with
    | .ok b => b
    | .err => false
  if s.dry_run = false ∧ dual0 = true then
    match env.set_position_mode with
    | .ok _ => .ok false
    | .err => .err
  else .ok dual0

/-- Leverage resolution (line 370):
leverage = endpoint_config.leverage or settings.default_leverage or 1,
with the falsy values None and 0 passed over. -/
def resolveLeverage (cfgLev defLev : Option ℤ) : ℤ :=
  let fallback := match defLev with
    | some d => if d = 0 then 1 else d
    | none => 1
  match cfgLev with
  | some l => if l = 0 then fallback else l
  | none => fallback

/-- Embedding of update_endpoint_position (lines 89-116): a zero
quantity deletes the record; otherwise the record is updated in place
(entry price only when truthy) or created. -/
def update_endpoint_position (pos : Option Position) (side : String) (qty : ℚ)
    (entry_price : Option ℚ) : Option Position :=
  if qty = 0 then none
  else
    match pos with
    | some p =>
      some { side := side, qty := qty,
             entry_price := match entry_price with
               | some e => if e = 0 then p.entry_price else some e
               | none => p.entry_price }
    | none => some { side := side, qty := qty, entry_price := entry_price }

/-- Net result of the opposite-close block (lines 417-460). -/
structure CloseRes where
  actions : List Effect
  ledger : Option Position

/-- The opposite-close block: when the ledger holds an opposite position
with positive quantity, a reduce-only market order sized to the ledger
quantity is submitted (outside dry-run) and the ledger record is
cleared on success; a failure of the close is swallowed and the ledger
is left as it was.  In dry-run no order is sent but the ledger record
is still cleared. -/
def closeStage (s : Settings) (env : Env) (dbPos : Option Position) (side : String) :
    CloseRes :=
  match dbPos with
  | some p =>
    if 0 < p.qty ∧ ((side = "BUY" ∧ p.side = "SHORT") ∨ (side = "SELL" ∧ p.side = "LONG")) then
      let close_side : String := if p.side = "SHORT" then "BUY" else "SELL"
      if s.dry_run then
        { actions := [.ledger_delete], ledger := none }
      else
        match env.close_order with
        | .ok _ => { actions := [.close_order close_side p.qty true, .ledger_delete],
                     ledger := none }
        | .err => { actions := [.close_order close_side p.qty true], ledger := some p }
    else { actions := [], ledger := some p }
  | none => { actions := [], ledger := none }

/-- Net result of the bracket block. -/
structure BracketRes where
  order_qty : ℚ
  warn : Bool

/-- The bracket block (lines 462-489): when a positionRisk entry
matches and the new notional exceeds a positive maxNotionalValue, the
quantity is replaced by maxNotional / price floored to the step and
re-rendered at the derived precision; a failed query is swallowed. -/
def bracketStage (env : Env) (order_qty price step : ℚ) (prec : ℕ) : BracketRes :=
  match env.position_risk with
  | .err => { order_qty := order_qty, warn := false }
  | .ok none => { order_qty := order_qty, warn := false }
  | .ok (some max_notional) =>
    let new_notional := order_qty * price
    if max_notional < new_notional ∧ 0 < max_notional then
      let allowed_qty := if 0 < price then max_notional / price else 0
      let allowed_qty := round_step allowed_qty step
      { order_qty := formatPrec allowed_qty prec, warn := true }
    else { order_qty := order_qty, warn := false }

/-- An early failure of the processing routine, before any order or
ledger effect: the item is marked failed and the ledger is untouched. -/
def failEarly (dbPos : Option Position) (msg : String) : RunResult :=
  { raised := false, success := false, order_id := none, error := some msg,
    status := some "failed", actions := [], ledger := dbPos, bracket_warn := false }

/-- A failure after the opposite-close block: its effects stand. -/
def failLate (cl : CloseRes) (warn : Bool) (msg : String) : RunResult :=
  { raised := false, success := false, order_id := none, error := some msg,
    status := some "failed", actions := cl.actions, ledger := cl.ledger,
    bracket_warn := warn }

/-- The tail of the routine after the order is placed (or skipped in
dry-run): the ledger is updated to the new side and quantity (lines
576-577), then success is decided by the presence of an order id, with
dry-run counting as success without one (lines 615-644). -/
def finalize (s : Settings) (nps : String) (price : ℚ) (br : BracketRes) (cl : CloseRes)
    (order_actions : List Effect) (oid : Option ℕ) : RunResult :=
  let ledger2 := update_endpoint_position cl.ledger nps br.order_qty (some price)
  let ledger_actions : List Effect :=
    if br.order_qty = 0 then
      (if cl.ledger.isSome then [.ledger_delete] else [])
    else [.ledger_upsert nps br.order_qty]
  let acts := cl.actions ++ order_actions ++ ledger_actions
  match oid with
  | some n =>
    { raised := false, success := true, order_id := some n, error := none,
      status := some "completed", actions := acts, ledger := ledger2,
      bracket_warn := br.warn }
  | none =>
    if s.dry_run then
      { raised := false, success := true, order_id := none, error := none,
        status := some "completed", actions := acts, ledger := ledger2,
        bracket_warn := br.warn }
    else
      { raised := false, success := false, order_id := none, error := some "no_order_id",
        status := some "failed", actions := acts, ledger := ledger2,
        bracket_warn := br.warn }

/-- The part of the routine from the post-bracket quantity check (line
491) to the end: leverage and margin type are set and the market order
is placed outside dry-run; an escalating margin-type failure escapes
the routine. -/
def afterBracket (s : Settings) (env : Env) (side nps : String) (price : ℚ)
    (cl : CloseRes) (br : BracketRes) : RunResult :=
  if s.dry_run = false ∧ br.order_qty ≤ 0 then
    failLate cl br.warn "max_notional_limit"
  else if s.dry_run then
    finalize s nps price br cl [] none
  else
    match env.set_leverage with
    | .err => failLate cl br.warn "set_leverage_error"
    | .ok _ =>
      match env.set_margin_type with
      | .escalate =>
        { raised := true, success := false, order_id := none, error := none,
          status := some "processing", actions := cl.actions, ledger := cl.ledger,
          bracket_warn := br.warn }
      | _ =>
        match env.place_order with
        | .err => failLate cl br.warn "order_error"
        | .ok oid => finalize s nps price br cl [.new_order side br.order_qty] oid

/-- Embedding of process_webhook_request (app/routers/webhook.py,
lines 194-647) as a pure function of the recorded call outcomes.
Failure labels stand for the error strings of the source:
unsupported_signal, endpoint_disabled, exchange_info_error,
position_mode_error, balance_error, price_error, below_min_lot,
max_notional_limit, set_leverage_error, order_error, no_order_id. -/
def process_webhook_request (s : Settings) (cfg : EndpointConfig)
    (dbPos : Option Position) (env : Env) (signal : PyStr) : RunResult :=
  match mapSignal (upperize signal) with
  | none => failEarly dbPos "unsupported_signal"
  | some sn =>
    let side := sn.1
    let nps := sn.2
    if cfg.enabled = false then failEarly dbPos "endpoint_disabled"
    else if sameDirectionSkip dbPos nps then
      { raised := false, success := true, order_id := none, error := none,
        status := some "completed", actions := [], ledger := dbPos,
        bracket_warn := false }
    else
      match env.exchange_info with
      | .err => failEarly dbPos "exchange_info_error"
      | .ok filters =>
        match resolveDual s env with
        | .err => failEarly dbPos "position_mode_error"
        | .ok _dual =>
          if s.has_api_keys = true ∧ s.dry_run = false ∧ env.balance = .err then
            failEarly dbPos "balance_error"
          else
            match env.ticker_price with
            | .err => failEarly dbPos "price_error"
            | .ok price =>
              if price ≤ 0 then failEarly dbPos "price_error"
              else
                let step := stepOf filters.stepSize
                let prec := precisionOf step
                let trade_amount_usdt := cfg.trade_amount_usd * cfg.multiplier
                let lev : ℤ := max 1 (resolveLeverage cfg.leverage s.default_leverage)
                let order_qty := computeOrderQty trade_amount_usdt lev price step
                if order_qty ≤ 0 ∨ order_qty < filters.minQty then
                  failEarly dbPos "below_min_lot"
                else
                  let cl := closeStage s env dbPos side
                  let br := bracketStage env order_qty price step prec
                  afterBracket s env side nps price cl br

/-! ## Webhook intake (app/routers/webhook.py, _enqueue_webhook) -/

/-- The inbound payload fields the intake looks at. -/
structure TVPayload where
  symbol : Option PyStr
  ticker : Option PyStr
  ticker_upper : Option PyStr
  tickerid : Option PyStr
  signal : PyStr

/-- One step of the Python or-chain over optional strings: a missing or
empty value is falsy and passes to the next alternative. -/
def pyOrStr (a : Option PyStr) (b : Option PyStr) : Option PyStr :=
  match a with
  | some s => if s.isEmpty then b else some s
  | none => b

/-- Line 154: symbol = payload.symbol or payload.ticker or
payload.ticker_upper or payload.tickerid. -/
def resolveSymbolField (p : TVPayload) : Option PyStr :=
  pyOrStr p.symbol (pyOrStr p.ticker (pyOrStr p.ticker_upper (pyOrStr p.tickerid none)))

/-- The intake decision (lines 153-191): reject with HTTP 400 only when
no truthy symbol field exists; otherwise normalize the symbol and
enqueue — the direction token is not examined here.  Returns the
normalized symbol of the enqueued item, or none when rejected. -/
def intakeEnqueues (p : TVPayload) : Option PyStr :=
  match resolveSymbolField p with
  | none => none
  | some s => if s.isEmpty then none else some (normalize_tv_symbol s)

/-! ## Durable queue (app/services/webhook_queue.py, WebhookQueue) -/

/-- One persisted webhook_events row (the fields the claims need). -/
structure DbRec where
  id : ℕ
  status : String
  retry_count : ℕ
deriving DecidableEq

/-- Autoincrement primary key: one more than the largest id on file. -/
def nextId (db : List DbRec) : ℕ := (db.map DbRec.id).foldr max 0 + 1

/-- Observable events of one enqueue call, in order. -/
inductive EnqEvent where
  | mem_push
  | db_attempt (ok : Bool)
deriving DecidableEq

/-- The attempt sequence of _write_to_db_async (lines 134-208): up to
max_retries = 3 attempts, stopping at the first success; between failed
attempts the task sleeps 2 ** attempt seconds. -/
def db_write_attempts (outcome : ℕ → Bool) : ℕ → ℕ → List EnqEvent
  | 0, _ => []
  | fuel+1, i =>
    if outcome i then [.db_attempt true]
    else .db_attempt false :: db_write_attempts outcome fuel (i+1)

/-- Embedding of WebhookQueue.enqueue (lines 18-106) together with its
background DB write: the item is put into the in-memory FIFO (step 3 of
the source), and only afterwards is the DB write task started (step 5);
the write persists the item with status pending and the next
autoincrement id when some attempt succeeds, and changes nothing when
all three attempts fail.  The queue is returned in both cases: the
source never removes the item on persistence failure. -/
def webhook_queue_enqueue (queue : List ℕ) (item : ℕ) (db : List DbRec)
    (outcome : ℕ → Bool) : List ℕ × List DbRec × List EnqEvent :=
  let queue2 := queue ++ [item]
  let events := EnqEvent.mem_push :: db_write_attempts outcome 3 0
  let db2 := if (List.range 3).any outcome
    then db ++ [{ id := nextId db, status := "pending", retry_count := 0 }]
    else db
  (queue2, db2, events)

/-! ## Worker retry handler (app/services/webhook_worker.py, _worker_loop) -/

/-- What the worker loop does with a queue item after processing it. -/
inductive WorkerEffect where
  | no_requeue
  | requeue (new_retry : ℕ) (delay : ℕ)
  | requeue_past_ceiling (new_retry : ℕ) (db_status : String)
deriving DecidableEq

/-- The retry ceiling of the worker loop (line 217). -/
def max_retries : ℕ := 3

/-- The exception handler of _worker_loop (lines 211-260): only an
exception escaping process_webhook triggers it.  Below the ceiling the
item is re-queued with retry count + 1 after a 2 ** retry_count backoff;
at or past the ceiling the item is still re-queued (never deleted) and
its durable status is set back to pending.  A processing call that
returns normally — success or failure dict alike — is never re-queued. -/
def workerOnResult (r : RunResult) (retry_count : ℕ) : WorkerEffect :=
  if r.raised then
    if retry_count < max_retries then .requeue (retry_count + 1) (2 ^ retry_count)
    else .requeue_past_ceiling (retry_count + 1) "pending"
  else .no_requeue

/-! ## Startup recovery (app/services/webhook_worker.py, start and
recover_pending_webhooks) -/

/-- One webhook_events row as the recovery query sees it. -/
structure DbEvent where
  id : ℕ
  endpoint : String
  status : String
deriving DecidableEq

def byIdLe (a b : DbEvent) : Prop := a.id ≤ b.id

instance : DecidableRel byIdLe := fun a b => Nat.decLe a.id b.id

instance : IsTotal DbEvent byIdLe := ⟨fun a b => Nat.le_total a.id b.id⟩

instance : IsTrans DbEvent byIdLe := ⟨fun _ _ _ => Nat.le_trans⟩

/-- The recovery query (lines 62-66): all rows with status pending and
this worker endpoint, ORDER BY id ASC. -/
def pendingQuery (db : List DbEvent) (endpoint : String) : List DbEvent :=
  List.insertionSort byIdLe
    (db.filter fun v => decide (v.status = "pending" ∧ v.endpoint = endpoint))

/-- Instructions of the start coroutine, as scheduled cooperatively:
creating the worker-loop task does not run it; putting into the
unbounded in-memory queue never suspends; the first suspension is the
notifier call after all puts. -/
inductive Instr where
  | create_loop_task
  | queue_put (v : DbEvent)
  | suspend_point

/-- The instruction sequence of WebhookWorker.start (lines 32-41
followed by recover_pending_webhooks, lines 54-102): create the loop
task, then put every recovered row in query order, then suspend. -/
def startProgram (db : List DbEvent) (endpoint : String) : List Instr :=
  Instr.create_loop_task :: (pendingQuery db endpoint).map Instr.queue_put ++ [Instr.suspend_point]

/-- State of the cooperative run of the start coroutine. -/
structure StartState where
  queue : List DbEvent
  loop_created : Bool

/-- Run the start coroutine to its first suspension point.  Until then
the created loop task cannot run, so it cannot consume. -/
def runUntilYield : List Instr → StartState → StartState
  | [], st => st
  | .create_loop_task :: rest, st => runUntilYield rest { st with loop_created := true }
  | .queue_put v :: rest, st => runUntilYield rest { st with queue := st.queue ++ [v] }
  | .suspend_point :: _, st => st

/-- The items the worker loop will consume, in order, once the start
coroutine first suspends: the queue is drained FIFO by the single
consumer. -/
def consumedOrder (db : List DbEvent) (endpoint : String) : List DbEvent :=
  (runUntilYield (startProgram db endpoint) { queue := [], loop_created := false }).queue

/-! ## Arithmetic lemmas about rounding and re-rendering -/

/-- Rounding an integer value changes nothing. -/
theorem roundHalfEven_intCast (k : ℤ) : roundHalfEven (k : ℚ) = k := by
  unfold roundHalfEven
  rw [Int.floor_intCast]
  norm_num

/-- The counted trailing decimal zeros really divide the integer. -/
theorem trailingZeroCount_dvd (fuel : ℕ) (n : ℤ) :
    (10:ℤ) ^ (trailingZeroCount n fuel) ∣ n := by
  induction fuel generalizing n with
  | zero => simp [trailingZeroCount]
  | succ fuel ih =>
    by_cases h : n % 10 = 0 ∧ n ≠ 0
    · have h10 : (10:ℤ) ∣ n := Int.dvd_of_emod_eq_zero h.1
      have hq : n / 10 * 10 = n := Int.ediv_mul_cancel h10
      rw [trailingZeroCount, if_pos h, pow_succ]
      calc (10:ℤ) ^ (trailingZeroCount (n / 10) fuel) * 10
          ∣ (n / 10) * 10 := mul_dvd_mul (ih (n / 10)) dvd_rfl
        _ = n := hq
    · rw [trailingZeroCount, if_neg h]
      simp

/-- A step with at most eight decimals, scaled by ten to its rendered
precision, is an integer. -/
theorem step_mul_pow_precision (step : ℚ) (m : ℤ) (hm : step * 10 ^ 8 = (m : ℚ)) :
    ∃ t : ℤ, step * 10 ^ (precisionOf step) = (t : ℚ) := by
  have hr : roundHalfEven (step * 10 ^ 8) = m := by
    rw [hm, roundHalfEven_intCast]
  by_cases hm0 : m = 0
  · have hstep : step = 0 := by
      have h8 : ((10:ℚ)) ^ 8 ≠ 0 := by norm_num
      have : step * 10 ^ 8 = 0 := by rw [hm, hm0]; norm_num
      exact (mul_eq_zero.mp this).resolve_right h8
    exact ⟨0, by rw [hstep]; norm_num⟩
  · have hprec : precisionOf step = 8 - min 8 (trailingZeroCount m 8) := by
      unfold precisionOf
      rw [hr, if_neg hm0]
    set z := trailingZeroCount m 8 with hz
    have hk_le : min 8 z ≤ 8 := min_le_left _ _
    have hdvd : (10:ℤ) ^ (min 8 z) ∣ m :=
      dvd_trans (pow_dvd_pow 10 (min_le_right 8 z)) (trailingZeroCount_dvd 8 m)
    obtain ⟨c, hc⟩ := hdvd
    refine ⟨c, ?_⟩
    have hsum : precisionOf step + min 8 z = 8 := by
      rw [hprec]
      omega
    have h10k : ((10:ℚ)) ^ (min 8 z) ≠ 0 := by positivity
    apply mul_right_cancel₀ h10k
    calc step * 10 ^ (precisionOf step) * 10 ^ (min 8 z)
        = step * 10 ^ (precisionOf step + min 8 z) := by rw [pow_add]; ring
      _ = step * 10 ^ 8 := by rw [hsum]
      _ = (m : ℚ) := hm
      _ = ((10:ℤ) ^ (min 8 z) * c : ℤ) := by exact_mod_cast congrArg Int.cast hc
      _ = (c : ℚ) * 10 ^ (min 8 z) := by push_cast; ring

/-- Re-rendering an integer multiple of the step at the precision
derived from the step is exact (the fixed-precision format introduces
no change). -/
theorem formatPrec_int_mul (step : ℚ) (m : ℤ) (hm : step * 10 ^ 8 = (m : ℚ)) (k : ℤ) :
    formatPrec ((k : ℚ) * step) (precisionOf step) = (k : ℚ) * step := by
  obtain ⟨t, ht⟩ := step_mul_pow_precision step m hm
  unfold formatPrec
  have hmul : (k : ℚ) * step * 10 ^ precisionOf step = ((k * t : ℤ) : ℚ) := by
    push_cast
    rw [mul_assoc, ht]
  rw [hmul, roundHalfEven_intCast]
  have h10 : ((10:ℚ)) ^ precisionOf step ≠ 0 := by positivity
  rw [div_eq_iff h10]
  push_cast
  rw [mul_assoc, ht]

/-- With a nonzero step, round_step is the floor formula. -/
theorem round_step_of_ne (v step : ℚ) (h : step ≠ 0) :
    round_step v step = (⌊v / step⌋ : ℚ) * step := by
  unfold round_step
  rw [if_neg h]

/-- Flooring to the step never rounds up. -/
theorem round_step_le (v step : ℚ) (h : 0 < step) : round_step v step ≤ v := by
  rw [round_step_of_ne v step (ne_of_gt h)]
  calc (⌊v / step⌋ : ℚ) * step ≤ (v / step) * step :=
        mul_le_mul_of_nonneg_right (Int.floor_le (v / step)) (le_of_lt h)
    _ = v := div_mul_cancel₀ v (ne_of_gt h)

/-- The full sizing computation equals the plain floor formula when the
step has at most eight decimals: the fixed-precision re-rendering is
the identity on the floored quantity. -/
theorem computeOrderQty_eq (c : ℚ) (lev : ℤ) (price step : ℚ) (m : ℤ)
    (hm : step * 10 ^ 8 = (m : ℚ)) (h0 : step ≠ 0) :
    computeOrderQty c lev price step = (⌊(c * (lev : ℚ) / price) / step⌋ : ℚ) * step := by
  show formatPrec (round_step (c * (lev : ℚ) / price) step) (precisionOf step) = _
  rw [round_step_of_ne _ _ h0]
  exact formatPrec_int_mul step m hm _

/-- The direction map only ever produces the two resolved pairs. -/
theorem mapSignal_cases {su : PyStr} {sn : String × String}
    (h : mapSignal su = some sn) :
    sn = ("BUY", "LONG") ∨ sn = ("SELL", "SHORT") := by
  unfold mapSignal at h
  split_ifs at h <;> simp_all

/-! ## Reduction helpers for the processing routine -/

/-- When every stage before the sizing gate passes and the gate itself
passes, the routine reduces to the close + bracket + order tail. -/
theorem process_reduces_afterBracket
    (s : Settings) (cfg : EndpointConfig) (dbPos : Option Position) (env : Env)
    (signal : PyStr) (sn : String × String) (f : Filters) (dual : Bool) (price : ℚ)
    (hsig : mapSignal (upperize signal) = some sn)
    (hen : cfg.enabled = true)
    (hskip : sameDirectionSkip dbPos sn.2 = false)
    (hex : env.exchange_info = .ok f)
    (hdual : resolveDual s env = .ok dual)
    (hbal : ¬(s.has_api_keys = true ∧ s.dry_run = false ∧ env.balance = ExCall.err))
    (hpr : env.ticker_price = .ok price)
    (hppos : 0 < price)
    (hq : ¬(computeOrderQty (cfg.trade_amount_usd * cfg.multiplier)
        (max 1 (resolveLeverage cfg.leverage s.default_leverage)) price (stepOf f.stepSize) ≤ 0 ∨
        computeOrderQty (cfg.trade_amount_usd * cfg.multiplier)
        (max 1 (resolveLeverage cfg.leverage s.default_leverage)) price (stepOf f.stepSize)
          < f.minQty)) :
    process_webhook_request s cfg dbPos env signal =
      afterBracket s env sn.1 sn.2 price (closeStage s env dbPos sn.1)
        (bracketStage env
          (computeOrderQty (cfg.trade_amount_usd * cfg.multiplier)
            (max 1 (resolveLeverage cfg.leverage s.default_leverage)) price
            (stepOf f.stepSize))
          price (stepOf f.stepSize) (precisionOf (stepOf f.stepSize))) := by
  unfold process_webhook_request
  rw [hsig]
  simp only [hen, hskip, hex, hdual, hpr]
  rw [if_neg (by simp), if_neg (by simp), if_neg hbal, if_neg (not_le.mpr hppos), if_neg hq]

/-- When every stage before the sizing gate passes but the gate fails,
the routine fails with the below-minimum error and no effect. -/
theorem process_fails_sizing
    (s : Settings) (cfg : EndpointConfig) (dbPos : Option Position) (env : Env)
    (signal : PyStr) (sn : String × String) (f : Filters) (dual : Bool) (price : ℚ)
    (hsig : mapSignal (upperize signal) = some sn)
    (hen : cfg.enabled = true)
    (hskip : sameDirectionSkip dbPos sn.2 = false)
    (hex : env.exchange_info = .ok f)
    (hdual : resolveDual s env = .ok dual)
    (hbal : ¬(s.has_api_keys = true ∧ s.dry_run = false ∧ env.balance = ExCall.err))
    (hpr : env.ticker_price = .ok price)
    (hppos : 0 < price)
    (hq : computeOrderQty (cfg.trade_amount_usd * cfg.multiplier)
        (max 1 (resolveLeverage cfg.leverage s.default_leverage)) price (stepOf f.stepSize) ≤ 0 ∨
        computeOrderQty (cfg.trade_amount_usd * cfg.multiplier)
        (max 1 (resolveLeverage cfg.leverage s.default_leverage)) price (stepOf f.stepSize)
          < f.minQty) :
    process_webhook_request s cfg dbPos env signal = failEarly dbPos "below_min_lot" := by
  unfold process_webhook_request
  rw [hsig]
  simp only [hen, hskip, hex, hdual, hpr]
  rw [if_neg (by simp), if_neg (by simp), if_neg hbal, if_neg (not_le.mpr hppos), if_pos hq]

/-- The tail of the routine never produces the below-minimum error:
its failure labels are the bracket, leverage, order and order-id ones. -/
theorem afterBracket_error_ne (s : Settings) (env : Env) (side nps : String)
    (price : ℚ) (cl : CloseRes) (br : BracketRes) :
    (afterBracket s env side nps price cl br).error ≠ some "below_min_lot" := by
  unfold afterBracket failLate finalize
  rcases env.set_leverage with _ | _ <;>
    rcases env.set_margin_type with _ | _ | _ <;>
      rcases env.place_order with v | _ <;>
        try rcases v with _ | n
  all_goals split_ifs <;> simp

/-- The order quantity the routine computes for a given configuration,
settings, lot filters and price (lines 388-406 of the routine). -/
def routineQty (s : Settings) (cfg : EndpointConfig) (f : Filters) (price : ℚ) : ℚ :=
  computeOrderQty (cfg.trade_amount_usd * cfg.multiplier)
    (max 1 (resolveLeverage cfg.leverage s.default_leverage)) price (stepOf f.stepSize)

/-- C5: with capital basis c = trade_amount_usd * multiplier, resolved
leverage L, price p > 0 and a positive step of at most eight decimals,
the computed order quantity equals floor((c * max(1,L) / p) / step) *
step — the fixed-precision decimal re-rendering at the step-derived
precision is exact — the quantity never exceeds the raw quotient
(rounding never rounds up), and the routine fails at the sizing gate
with the below-minimum error (placing no order: failEarly carries an
empty effect list) exactly when that quantity is ≤ 0 or below the
exchange minimum quantity. -/
theorem C5_sizing_floor_and_gate
    (s : Settings) (cfg : EndpointConfig) (dbPos : Option Position) (env : Env)
    (signal : PyStr) (sn : String × String) (f : Filters) (dual : Bool) (price : ℚ) (m : ℤ)
    (hsig : mapSignal (upperize signal) = some sn)
    (hen : cfg.enabled = true)
    (hskip : sameDirectionSkip dbPos sn.2 = false)
    (hex : env.exchange_info = .ok f)
    (hdual : resolveDual s env = .ok dual)
    (hbal : ¬(s.has_api_keys = true ∧ s.dry_run = false ∧ env.balance = ExCall.err))
    (hpr : env.ticker_price = .ok price)
    (hppos : 0 < price)
    (hstep : 0 < f.stepSize)
    (hm : f.stepSize * 10 ^ 8 = (m : ℚ)) :
    routineQty s cfg f price
      = (⌊(cfg.trade_amount_usd * cfg.multiplier *
            ((max 1 (resolveLeverage cfg.leverage s.default_leverage) : ℤ) : ℚ) / price)
          / f.stepSize⌋ : ℚ) * f.stepSize
    ∧ routineQty s cfg f price
        ≤ cfg.trade_amount_usd * cfg.multiplier *
            ((max 1 (resolveLeverage cfg.leverage s.default_leverage) : ℤ) : ℚ) / price
    ∧ (process_webhook_request s cfg dbPos env signal = failEarly dbPos "below_min_lot"
        ↔ (routineQty s cfg f price ≤ 0 ∨ routineQty s cfg f price < f.minQty)) := by
  have hsne : f.stepSize ≠ 0 := ne_of_gt hstep
  have hstepOf : stepOf f.stepSize = f.stepSize := by
    unfold stepOf
    rw [if_neg hsne]
  have hQ : routineQty s cfg f price
      = (⌊(cfg.trade_amount_usd * cfg.multiplier *
            ((max 1 (resolveLeverage cfg.leverage s.default_leverage) : ℤ) : ℚ) / price)
          / f.stepSize⌋ : ℚ) * f.stepSize := by
    unfold routineQty
    rw [hstepOf]
    exact computeOrderQty_eq _ _ _ _ m hm hsne
  refine ⟨hQ, ?_, ?_⟩
  · rw [hQ]
    have h := round_step_le (cfg.trade_amount_usd * cfg.multiplier *
        ((max 1 (resolveLeverage cfg.leverage s.default_leverage) : ℤ) : ℚ) / price)
        f.stepSize hstep
    rw [round_step_of_ne _ _ hsne] at h
    exact h
  · constructor
    · intro hfail
      by_contra hnot
      have hq : ¬(computeOrderQty (cfg.trade_amount_usd * cfg.multiplier)
          (max 1 (resolveLeverage cfg.leverage s.default_leverage)) price (stepOf f.stepSize) ≤ 0 ∨
          computeOrderQty (cfg.trade_amount_usd * cfg.multiplier)
          (max 1 (resolveLeverage cfg.leverage s.default_leverage)) price (stepOf f.stepSize)
            < f.minQty) := by
        unfold routineQty at hnot
        exact hnot
      have hred := process_reduces_afterBracket s cfg dbPos env signal sn f dual price
        hsig hen hskip hex hdual hbal hpr hppos hq
      rw [hred] at hfail
      have herr := congrArg RunResult.error hfail
      exact afterBracket_error_ne s env sn.1 sn.2 price _ _ herr
    · intro hcond
      apply process_fails_sizing s cfg dbPos env signal sn f dual price
        hsig hen hskip hex hdual hbal hpr hppos
      unfold routineQty at hcond
      exact hcond

/-! ## Concrete fixtures used by witnesses and counterexamples -/

/-- Lot filters with minQty = stepSize = 0.01 (the spec example). -/
def filtersCenti : Filters := { minQty := 1/100, stepSize := 1/100 }

/-- An environment where every exchange call succeeds: one-way account,
price as given, no matching bracket entry, order id 1. -/
def envAllOk (f : Filters) (price : ℚ) : Env :=
  { exchange_info := .ok f, position_mode := .ok false, set_position_mode := .ok (),
    balance := .ok 100000, ticker_price := .ok price, close_order := .ok (),
    position_risk := .ok none, set_leverage := .ok (), set_margin_type := .ok,
    place_order := .ok (some 1) }

/-- Live settings: no dry-run, no API keys configured, default leverage 5. -/
def settingsLive : Settings :=
  { dry_run := false, has_api_keys := false, default_leverage := some 5 }

/-- The endpoint config of the spec example: 100 USDT, multiplier 1,
leverage 5, enabled. -/
def cfgSpec : EndpointConfig :=
  { trade_amount_usd := 100, multiplier := 1, leverage := some 5, enabled := true }

/-- C5 witness: at price 100, capital basis 100, leverage 5, step 0.01,
minQty 0.01, the computed quantity is exactly 5 and the sizing gate
does not fail. -/
theorem C5_sizing_witness :
    routineQty settingsLive cfgSpec filtersCenti 100 = 5 ∧
    ¬(process_webhook_request settingsLive cfgSpec none (envAllOk filtersCenti 100) "BUY".data
        = failEarly none "below_min_lot") := by
  have h := C5_sizing_floor_and_gate settingsLive cfgSpec none (envAllOk filtersCenti 100)
      "BUY".data ("BUY", "LONG") filtersCenti false 100 1000000
      (by decide) (by decide) (by decide) rfl rfl
      (by simp [settingsLive]) rfl (by norm_num)
      (by norm_num [filtersCenti]) (by norm_num [filtersCenti])
  obtain ⟨h1, _h2, h3⟩ := h
  have hv : routineQty settingsLive cfgSpec filtersCenti 100 = 5 := by
    rw [h1]
    norm_num [cfgSpec, settingsLive, filtersCenti, resolveLeverage]
  refine ⟨hv, ?_⟩
  rw [hv] at h3
  norm_num [filtersCenti] at h3
  exact h3

/-! ## Claim C6 — same-direction idempotent skip -/

/-- C6: when the ledger already holds a position with positive quantity
whose side equals the resolved direction, the routine skips execution
entirely: no order and no ledger write (empty effect list), the ledger
record unchanged, the item marked completed, and a success response
with a null order id. -/
theorem C6_same_direction_skip
    (s : Settings) (cfg : EndpointConfig) (p : Position) (env : Env)
    (signal : PyStr) (sn : String × String)
    (hsig : mapSignal (upperize signal) = some sn)
    (hen : cfg.enabled = true)
    (hq : 0 < p.qty)
    (hside : p.side = sn.2) :
    process_webhook_request s cfg (some p) env signal =
      { raised := false, success := true, order_id := none, error := none,
        status := some "completed", actions := [], ledger := some p,
        bracket_warn := false } := by
  have hskip : sameDirectionSkip (some p) sn.2 = true := by
    simp [sameDirectionSkip, hq, hside]
  unfold process_webhook_request
  rw [hsig]
  simp [hen, hskip]

/-- C6 witness: a ledger LONG position of quantity 1 and a new LONG
signal for the same channel+symbol produce the skip response. -/
theorem C6_same_direction_skip_witness :
    process_webhook_request settingsLive cfgSpec
        (some { side := "LONG", qty := 1, entry_price := none })
        (envAllOk filtersCenti 100) "LONG".data =
      { raised := false, success := true, order_id := none, error := none,
        status := some "completed", actions := [],
        ledger := some { side := "LONG", qty := 1, entry_price := none },
        bracket_warn := false } := by
  exact C6_same_direction_skip settingsLive cfgSpec
    { side := "LONG", qty := 1, entry_price := none }
    (envAllOk filtersCenti 100) "LONG".data ("BUY", "LONG")
    (by decide) (by decide) (by norm_num) rfl

/-- Shared computation: the spec-example quantity is 5 at price 100
with step 0.01. -/
theorem routineQty_centi_100 : routineQty settingsLive cfgSpec filtersCenti 100 = 5 := by
  unfold routineQty
  have h := computeOrderQty_eq (cfgSpec.trade_amount_usd * cfgSpec.multiplier)
      (max 1 (resolveLeverage cfgSpec.leverage settingsLive.default_leverage)) 100
      (stepOf filtersCenti.stepSize) 1000000
      (by norm_num [filtersCenti, stepOf]) (by norm_num [filtersCenti, stepOf])
  rw [h]
  norm_num [cfgSpec, settingsLive, filtersCenti, stepOf, resolveLeverage]

/-! ## Claim C4 — ledger-driven flip close -/

/-- C4 (amended): when the ledger holds an opposite position with
quantity q > 0 and the run succeeds end to end, the worker submits a
reduce-only closing market order of exactly q — the ledger quantity —
before the new order, and the ledger entry is deleted on close success;
the close happens after the new order quantity has been computed and
validated (see the counterexample for a sizing failure that prevents
the close), and before the bracket evaluation and the new order. -/
theorem C4_flip_close_amended
    (s : Settings) (cfg : EndpointConfig) (p : Position) (env : Env)
    (signal : PyStr) (sn : String × String) (f : Filters) (dual : Bool)
    (price : ℚ) (oid : ℕ)
    (hsig : mapSignal (upperize signal) = some sn)
    (hen : cfg.enabled = true)
    (hopp : 0 < p.qty ∧ ((sn.1 = "BUY" ∧ p.side = "SHORT") ∨ (sn.1 = "SELL" ∧ p.side = "LONG")))
    (hex : env.exchange_info = .ok f)
    (hdual : resolveDual s env = .ok dual)
    (hbal : ¬(s.has_api_keys = true ∧ s.dry_run = false ∧ env.balance = ExCall.err))
    (hpr : env.ticker_price = .ok price)
    (hppos : 0 < price)
    (hq : ¬(routineQty s cfg f price ≤ 0 ∨ routineQty s cfg f price < f.minQty))
    (hdry : s.dry_run = false)
    (hclose : env.close_order = .ok ())
    (hrisk : env.position_risk = .ok none)
    (hlev : env.set_leverage = .ok ())
    (hmt : env.set_margin_type = .ok)
    (hord : env.place_order = .ok (some oid)) :
    process_webhook_request s cfg (some p) env signal =
      { raised := false, success := true, order_id := some oid, error := none,
        status := some "completed",
        actions := [Effect.close_order (if p.side = "SHORT" then "BUY" else "SELL") p.qty true,
                    Effect.ledger_delete,
                    Effect.new_order sn.1 (routineQty s cfg f price),
                    Effect.ledger_upsert sn.2 (routineQty s cfg f price)],
        ledger := some { side := sn.2, qty := routineQty s cfg f price,
                         entry_price := some price },
        bracket_warn := false } := by
  have hskip : sameDirectionSkip (some p) sn.2 = false := by
    rcases mapSignal_cases hsig with h | h <;>
      rcases hopp.2 with ⟨h1, h2⟩ | ⟨h1, h2⟩ <;>
        simp_all [sameDirectionSkip]
  have hQpos : 0 < routineQty s cfg f price := by
    by_contra hle
    exact hq (Or.inl (le_of_not_lt hle))
  have hQne : routineQty s cfg f price ≠ 0 := ne_of_gt hQpos
  unfold routineQty at hq hQpos hQne ⊢
  have hred := process_reduces_afterBracket s cfg (some p) env signal sn f dual price
    hsig hen hskip hex hdual hbal hpr hppos hq
  rw [hred]
  have hcl : closeStage s env (some p) sn.1 =
      { actions := [Effect.close_order (if p.side = "SHORT" then "BUY" else "SELL") p.qty true,
                    Effect.ledger_delete],
        ledger := none } := by
    simp only [closeStage]
    rw [if_pos hopp]
    simp [hdry, hclose]
  have hbr : bracketStage env
      (computeOrderQty (cfg.trade_amount_usd * cfg.multiplier)
        (max 1 (resolveLeverage cfg.leverage s.default_leverage)) price (stepOf f.stepSize))
      price (stepOf f.stepSize) (precisionOf (stepOf f.stepSize)) =
      { order_qty := computeOrderQty (cfg.trade_amount_usd * cfg.multiplier)
          (max 1 (resolveLeverage cfg.leverage s.default_leverage)) price (stepOf f.stepSize),
        warn := false } := by
    unfold bracketStage
    rw [hrisk]
  rw [hcl, hbr]
  unfold afterBracket
  rw [if_neg (by
    intro hco
    exact absurd hco.2 (not_le.mpr hQpos))]
  rw [if_neg (by simp [hdry])]
  rw [hlev, hmt, hord]
  unfold finalize update_endpoint_position
  rw [if_neg hQne]
  simp [hQne, ne_of_gt hppos]

/-- A ledger LONG position of quantity 2 (opposite of a SELL signal). -/
def posLong2 : Position := { side := "LONG", qty := 2, entry_price := none }

/-- Filters whose minimum quantity exceeds the computed quantity. -/
def filtersBigMin : Filters := { minQty := 1000, stepSize := 1/100 }

/-- C4 counterexample: the ledger holds an opposite position (LONG 2
against a SELL signal), yet no reduce-only close is ever submitted —
the routine evaluates the new order quantity first, fails the
below-minimum gate, and returns with an empty effect list and the
opposite position still on the ledger.  This refutes the claim that the
close is submitted before the new order is evaluated. -/
theorem C4_counterexample :
    oppositeDetected (some posLong2) "SELL" = true ∧
    process_webhook_request settingsLive cfgSpec (some posLong2)
        (envAllOk filtersBigMin 100) "SELL".data
      = failEarly (some posLong2) "below_min_lot" := by
  constructor
  · norm_num [oppositeDetected, posLong2]
  · have hQ : computeOrderQty (cfgSpec.trade_amount_usd * cfgSpec.multiplier)
        (max 1 (resolveLeverage cfgSpec.leverage settingsLive.default_leverage)) 100
        (stepOf filtersBigMin.stepSize) = 5 := by
      have h := computeOrderQty_eq (cfgSpec.trade_amount_usd * cfgSpec.multiplier)
          (max 1 (resolveLeverage cfgSpec.leverage settingsLive.default_leverage)) 100
          (stepOf filtersBigMin.stepSize) 1000000
          (by norm_num [filtersBigMin, stepOf]) (by norm_num [filtersBigMin, stepOf])
      rw [h]
      norm_num [cfgSpec, settingsLive, filtersBigMin, stepOf, resolveLeverage]
    apply process_fails_sizing settingsLive cfgSpec (some posLong2)
        (envAllOk filtersBigMin 100) "SELL".data ("SELL", "SHORT") filtersBigMin false 100
        (by decide) (by decide) (by norm_num [sameDirectionSkip, posLong2]; decide) rfl rfl
        (by simp [settingsLive]) rfl (by norm_num)
    rw [hQ]
    norm_num [filtersBigMin]

/-- C4 witness: ledger SHORT 2.0, BUY signal, successful run — the
reduce-only close of exactly 2.0 precedes the new order of quantity 5,
and the ledger entry is deleted by the close then rewritten by the new
order. -/
theorem C4_flip_close_witness :
    process_webhook_request settingsLive cfgSpec
        (some { side := "SHORT", qty := 2, entry_price := none })
        (envAllOk filtersCenti 100) "BUY".data =
      { raised := false, success := true, order_id := some 1, error := none,
        status := some "completed",
        actions := [Effect.close_order "BUY" 2 true, Effect.ledger_delete,
                    Effect.new_order "BUY" 5, Effect.ledger_upsert "LONG" 5],
        ledger := some { side := "LONG", qty := 5, entry_price := some 100 },
        bracket_warn := false } := by
  have h := C4_flip_close_amended settingsLive cfgSpec
      { side := "SHORT", qty := 2, entry_price := none }
      (envAllOk filtersCenti 100) "BUY".data ("BUY", "LONG") filtersCenti false 100 1
      (by decide) (by decide) (by norm_num)
      rfl rfl (by simp [settingsLive]) rfl (by norm_num)
      (by rw [routineQty_centi_100]; norm_num [filtersCenti])
      rfl rfl rfl rfl rfl rfl
  rw [routineQty_centi_100] at h
  simpa using h

/-! ## Claim C10 — failed close is swallowed -/

/-- C10: outside dry-run, when the reduce-only close raises, the error
is swallowed and the run continues: the new order is still submitted,
the opposite ledger entry is not deleted at the point of the failed
close (no ledger_delete effect), and it is overwritten with the new
side and quantity when the new order is recorded. -/
theorem C10_close_error_swallowed
    (s : Settings) (cfg : EndpointConfig) (p : Position) (env : Env)
    (signal : PyStr) (sn : String × String) (f : Filters) (dual : Bool)
    (price : ℚ) (oid : ℕ)
    (hsig : mapSignal (upperize signal) = some sn)
    (hen : cfg.enabled = true)
    (hopp : 0 < p.qty ∧ ((sn.1 = "BUY" ∧ p.side = "SHORT") ∨ (sn.1 = "SELL" ∧ p.side = "LONG")))
    (hex : env.exchange_info = .ok f)
    (hdual : resolveDual s env = .ok dual)
    (hbal : ¬(s.has_api_keys = true ∧ s.dry_run = false ∧ env.balance = ExCall.err))
    (hpr : env.ticker_price = .ok price)
    (hppos : 0 < price)
    (hq : ¬(routineQty s cfg f price ≤ 0 ∨ routineQty s cfg f price < f.minQty))
    (hdry : s.dry_run = false)
    (hclose : env.close_order = .err)
    (hrisk : env.position_risk = .ok none)
    (hlev : env.set_leverage = .ok ())
    (hmt : env.set_margin_type = .ok)
    (hord : env.place_order = .ok (some oid)) :
    process_webhook_request s cfg (some p) env signal =
      { raised := false, success := true, order_id := some oid, error := none,
        status := some "completed",
        actions := [Effect.close_order (if p.side = "SHORT" then "BUY" else "SELL") p.qty true,
                    Effect.new_order sn.1 (routineQty s cfg f price),
                    Effect.ledger_upsert sn.2 (routineQty s cfg f price)],
        ledger := some { side := sn.2, qty := routineQty s cfg f price,
                         entry_price := some price },
        bracket_warn := false } := by
  have hskip : sameDirectionSkip (some p) sn.2 = false := by
    rcases mapSignal_cases hsig with h | h <;>
      rcases hopp.2 with ⟨h1, h2⟩ | ⟨h1, h2⟩ <;>
        simp_all [sameDirectionSkip]
  have hQpos : 0 < routineQty s cfg f price := by
    by_contra hle
    exact hq (Or.inl (le_of_not_lt hle))
  have hQne : routineQty s cfg f price ≠ 0 := ne_of_gt hQpos
  unfold routineQty at hq hQpos hQne ⊢
  have hred := process_reduces_afterBracket s cfg (some p) env signal sn f dual price
    hsig hen hskip hex hdual hbal hpr hppos hq
  rw [hred]
  have hcl : closeStage s env (some p) sn.1 =
      { actions := [Effect.close_order (if p.side = "SHORT" then "BUY" else "SELL") p.qty true],
        ledger := some p } := by
    simp only [closeStage]
    rw [if_pos hopp]
    simp [hdry, hclose]
  have hbr : bracketStage env
      (computeOrderQty (cfg.trade_amount_usd * cfg.multiplier)
        (max 1 (resolveLeverage cfg.leverage s.default_leverage)) price (stepOf f.stepSize))
      price (stepOf f.stepSize) (precisionOf (stepOf f.stepSize)) =
      { order_qty := computeOrderQty (cfg.trade_amount_usd * cfg.multiplier)
          (max 1 (resolveLeverage cfg.leverage s.default_leverage)) price (stepOf f.stepSize),
        warn := false } := by
    unfold bracketStage
    rw [hrisk]
  rw [hcl, hbr]
  unfold afterBracket
  rw [if_neg (by
    intro hco
    exact absurd hco.2 (not_le.mpr hQpos))]
  rw [if_neg (by simp [hdry])]
  rw [hlev, hmt, hord]
  unfold finalize update_endpoint_position
  rw [if_neg hQne]
  simp [hQne, ne_of_gt hppos]

/-- Environment where only the reduce-only close fails. -/
def envCloseErr (f : Filters) (price : ℚ) : Env :=
  { envAllOk f price with close_order := .err }

/-- C10 witness: ledger SHORT 2.0, BUY signal, failed close — the run
still succeeds, no ledger_delete happens, and the ledger ends as
LONG 5. -/
theorem C10_close_error_witness :
    process_webhook_request settingsLive cfgSpec
        (some { side := "SHORT", qty := 2, entry_price := none })
        (envCloseErr filtersCenti 100) "BUY".data =
      { raised := false, success := true, order_id := some 1, error := none,
        status := some "completed",
        actions := [Effect.close_order "BUY" 2 true,
                    Effect.new_order "BUY" 5, Effect.ledger_upsert "LONG" 5],
        ledger := some { side := "LONG", qty := 5, entry_price := some 100 },
        bracket_warn := false } := by
  have h := C10_close_error_swallowed settingsLive cfgSpec
      { side := "SHORT", qty := 2, entry_price := none }
      (envCloseErr filtersCenti 100) "BUY".data ("BUY", "LONG") filtersCenti false 100 1
      (by decide) (by decide) (by norm_num)
      rfl rfl (by simp [settingsLive]) rfl (by norm_num)
      (by rw [routineQty_centi_100]; norm_num [filtersCenti])
      rfl rfl rfl rfl rfl rfl
  rw [routineQty_centi_100] at h
  simpa using h

/-- Formatting zero at any precision yields zero. -/
theorem formatPrec_zero (p : ℕ) : formatPrec 0 p = 0 := by
  unfold formatPrec roundHalfEven
  norm_num

/-! ## Claim C7 — bracket shrink -/

/-- C7 (amended): when the matching bracket entry reports maxNotional
mx > 0 and the resolved notional exceeds it, the quantity is replaced
by mx / price floored to the step — never larger than the original
quantity, and its notional never exceeds mx — the bracket warning is
set, and processing continues to a successful order provided the capped
quantity is still positive (a capped quantity of zero aborts instead,
see the counterexample). -/
theorem C7_bracket_shrink_amended
    (s : Settings) (cfg : EndpointConfig) (env : Env)
    (signal : PyStr) (sn : String × String) (f : Filters) (dual : Bool)
    (price mx : ℚ) (m : ℤ) (oid : ℕ)
    (hsig : mapSignal (upperize signal) = some sn)
    (hen : cfg.enabled = true)
    (hex : env.exchange_info = .ok f)
    (hdual : resolveDual s env = .ok dual)
    (hbal : ¬(s.has_api_keys = true ∧ s.dry_run = false ∧ env.balance = ExCall.err))
    (hpr : env.ticker_price = .ok price)
    (hppos : 0 < price)
    (hstep : 0 < f.stepSize)
    (hm : f.stepSize * 10 ^ 8 = (m : ℚ))
    (hq : ¬(routineQty s cfg f price ≤ 0 ∨ routineQty s cfg f price < f.minQty))
    (hrisk : env.position_risk = .ok (some mx))
    (hmx : 0 < mx)
    (hexceed : mx < routineQty s cfg f price * price)
    (hdry : s.dry_run = false)
    (hcap : 0 < round_step (mx / price) f.stepSize)
    (hlev : env.set_leverage = .ok ())
    (hmt : env.set_margin_type = .ok)
    (hord : env.place_order = .ok (some oid)) :
    bracketStage env (routineQty s cfg f price) price (stepOf f.stepSize)
        (precisionOf (stepOf f.stepSize))
      = { order_qty := round_step (mx / price) f.stepSize, warn := true }
    ∧ round_step (mx / price) f.stepSize ≤ routineQty s cfg f price
    ∧ round_step (mx / price) f.stepSize * price ≤ mx
    ∧ process_webhook_request s cfg none env signal =
      { raised := false, success := true, order_id := some oid, error := none,
        status := some "completed",
        actions := [Effect.new_order sn.1 (round_step (mx / price) f.stepSize),
                    Effect.ledger_upsert sn.2 (round_step (mx / price) f.stepSize)],
        ledger := some { side := sn.2, qty := round_step (mx / price) f.stepSize,
                         entry_price := some price },
        bracket_warn := true } := by
  have hsne : f.stepSize ≠ 0 := ne_of_gt hstep
  have hstepOf : stepOf f.stepSize = f.stepSize := by
    unfold stepOf
    rw [if_neg hsne]
  have hbr : bracketStage env (routineQty s cfg f price) price (stepOf f.stepSize)
      (precisionOf (stepOf f.stepSize))
      = { order_qty := round_step (mx / price) f.stepSize, warn := true } := by
    simp only [bracketStage, hrisk]
    rw [if_pos ⟨hexceed, hmx⟩, if_pos hppos, hstepOf]
    rw [round_step_of_ne _ _ hsne]
    rw [formatPrec_int_mul f.stepSize m hm]
  have hle_div : round_step (mx / price) f.stepSize ≤ mx / price :=
    round_step_le _ _ hstep
  have hlt : mx / price < routineQty s cfg f price :=
    (div_lt_iff₀ hppos).mpr hexceed
  have hshrink : round_step (mx / price) f.stepSize ≤ routineQty s cfg f price :=
    le_of_lt (lt_of_le_of_lt hle_div hlt)
  have hnotional : round_step (mx / price) f.stepSize * price ≤ mx :=
    (le_div_iff₀ hppos).mp hle_div
  refine ⟨hbr, hshrink, hnotional, ?_⟩
  have hcapne : round_step (mx / price) f.stepSize ≠ 0 := ne_of_gt hcap
  unfold routineQty at hq
  have hred := process_reduces_afterBracket s cfg none env signal sn f dual price
    hsig hen rfl hex hdual hbal hpr hppos hq
  rw [hred]
  have hcl : closeStage s env none sn.1 = { actions := [], ledger := none } := rfl
  unfold routineQty at hbr
  rw [hcl, hbr]
  unfold afterBracket
  rw [if_neg (by
    intro hco
    exact absurd hco.2 (not_le.mpr hcap))]
  rw [if_neg (by simp [hdry])]
  rw [hlev, hmt, hord]
  unfold finalize update_endpoint_position
  rw [if_neg hcapne]
  simp [hcapne, ne_of_gt hppos]

/-- Environment whose bracket entry reports a tiny maxNotional. -/
def envSmallBracket : Env :=
  { envAllOk filtersCenti 100 with position_risk := .ok (some (1/10000)) }

/-- C7 counterexample: maxNotional = 0.0001 > 0 is exceeded by the
resolved notional 500, but flooring 0.0001/100 to the 0.01 step gives
quantity 0, and the routine aborts with the max-notional failure
(success = false) instead of continuing with a warning.  This refutes
the unconditional continue-as-success part of the claim. -/
theorem C7_counterexample :
    (0 : ℚ) < 1/10000 ∧
    (1/10000 : ℚ) < routineQty settingsLive cfgSpec filtersCenti 100 * 100 ∧
    process_webhook_request settingsLive cfgSpec none envSmallBracket "BUY".data =
      { raised := false, success := false, order_id := none,
        error := some "max_notional_limit", status := some "failed",
        actions := [], ledger := none, bracket_warn := true } := by
  refine ⟨by norm_num, by rw [routineQty_centi_100]; norm_num, ?_⟩
  have hq : ¬(routineQty settingsLive cfgSpec filtersCenti 100 ≤ 0 ∨
      routineQty settingsLive cfgSpec filtersCenti 100 < filtersCenti.minQty) := by
    rw [routineQty_centi_100]
    norm_num [filtersCenti]
  unfold routineQty at hq
  have hred := process_reduces_afterBracket settingsLive cfgSpec none envSmallBracket
      "BUY".data ("BUY", "LONG") filtersCenti false 100
      (by decide) (by decide) rfl rfl rfl (by simp [settingsLive]) rfl (by norm_num) hq
  rw [hred]
  have hQ5 : computeOrderQty (cfgSpec.trade_amount_usd * cfgSpec.multiplier)
      (max 1 (resolveLeverage cfgSpec.leverage settingsLive.default_leverage)) 100
      (stepOf filtersCenti.stepSize) = 5 := by
    have h := routineQty_centi_100
    unfold routineQty at h
    exact h
  have hbr : bracketStage envSmallBracket
      (computeOrderQty (cfgSpec.trade_amount_usd * cfgSpec.multiplier)
        (max 1 (resolveLeverage cfgSpec.leverage settingsLive.default_leverage)) 100
        (stepOf filtersCenti.stepSize))
      100 (stepOf filtersCenti.stepSize) (precisionOf (stepOf filtersCenti.stepSize)) =
      { order_qty := 0, warn := true } := by
    have hzero : round_step ((1/10000 : ℚ) / 100) (stepOf filtersCenti.stepSize) = 0 := by
      norm_num [round_step, stepOf, filtersCenti]
    have hrk : envSmallBracket.position_risk = .ok (some (1/10000)) := rfl
    simp only [bracketStage, hrk]
    rw [if_pos ⟨by rw [hQ5]; norm_num, by norm_num⟩]
    rw [if_pos (by norm_num : (0:ℚ) < 100)]
    rw [hzero, formatPrec_zero]
  rw [hbr]
  have hcl : closeStage settingsLive envSmallBracket none "BUY" =
      { actions := [], ledger := none } := rfl
  rw [hcl]
  unfold afterBracket
  rw [if_pos ⟨rfl, le_refl (0:ℚ)⟩]
  rfl

/-- Environment whose bracket entry reports maxNotional 250. -/
def envBracket250 : Env :=
  { envAllOk filtersCenti 100 with position_risk := .ok (some 250) }

/-- C7 witness: maxNotional 250 against resolved notional 500 shrinks
the quantity from 5 to exactly 250/100 = 2.5 (floored to the 0.01
step), the notional of the capped order is 250 ≤ 250, the warning is
set and the run succeeds. -/
theorem C7_bracket_shrink_witness :
    round_step ((250 : ℚ) / 100) filtersCenti.stepSize = 5/2 ∧
    process_webhook_request settingsLive cfgSpec none envBracket250 "BUY".data =
      { raised := false, success := true, order_id := some 1, error := none,
        status := some "completed",
        actions := [Effect.new_order "BUY" (5/2), Effect.ledger_upsert "LONG" (5/2)],
        ledger := some { side := "LONG", qty := 5/2, entry_price := some 100 },
        bracket_warn := true } := by
  have hrs : round_step ((250 : ℚ) / 100) filtersCenti.stepSize = 5/2 := by
    norm_num [round_step, filtersCenti]
  have h := C7_bracket_shrink_amended settingsLive cfgSpec envBracket250
      "BUY".data ("BUY", "LONG") filtersCenti false 100 250 1000000 1
      (by decide) (by decide) rfl rfl (by simp [settingsLive]) rfl (by norm_num)
      (by norm_num [filtersCenti]) (by norm_num [filtersCenti])
      (by rw [routineQty_centi_100]; norm_num [filtersCenti])
      rfl (by norm_num) (by rw [routineQty_centi_100]; norm_num)
      rfl (by rw [hrs]; norm_num) rfl rfl rfl
  obtain ⟨_, _, _, h4⟩ := h
  rw [hrs] at h4
  exact ⟨hrs, h4⟩

/-! ## Claim C3 — direction-token mapping and where it happens -/

/-- C3 (amended): the worker maps the upper-cased direction token:
AL, BUY and LONG resolve to BUY (position side LONG); SAT, SELL and
SHORT resolve to SELL (position side SHORT); any other token makes the
worker fail the item with the unsupported-signal error and no effects —
but this check runs in the worker after dequeue: the intake decision
ignores the direction token entirely, so a signal with an invalid
token does enter the queue (see the counterexample). -/
theorem C3_direction_mapping_amended :
    mapSignal "AL".data = some ("BUY", "LONG")
    ∧ mapSignal "BUY".data = some ("BUY", "LONG")
    ∧ mapSignal "LONG".data = some ("BUY", "LONG")
    ∧ mapSignal "SAT".data = some ("SELL", "SHORT")
    ∧ mapSignal "SELL".data = some ("SELL", "SHORT")
    ∧ mapSignal "SHORT".data = some ("SELL", "SHORT")
    ∧ (∀ (s : Settings) (cfg : EndpointConfig) (dbPos : Option Position) (env : Env)
        (signal : PyStr), mapSignal (upperize signal) = none →
        process_webhook_request s cfg dbPos env signal = failEarly dbPos "unsupported_signal")
    ∧ (∀ (p : TVPayload) (t : PyStr),
        intakeEnqueues { p with signal := t } = intakeEnqueues p) := by
  refine ⟨by decide, by decide, by decide, by decide, by decide, by decide, ?_, ?_⟩
  · intro s cfg dbPos env signal h
    unfold process_webhook_request
    rw [h]
  · intro p t
    rfl

/-- A payload with a valid symbol and the direction token FOO. -/
def payloadFoo : TVPayload :=
  { symbol := some "BTCUSDT".data, ticker := none, ticker_upper := none,
    tickerid := none, signal := "FOO".data }

/-- C3 counterexample: a signal with the unsupported direction token
FOO is nevertheless enqueued by the intake — it enters the queue,
refuting the claim that such signals are rejected before being
enqueued.  The worker fails it only later, after dequeue. -/
theorem C3_counterexample :
    intakeEnqueues payloadFoo = some "BTCUSDT".data ∧
    mapSignal (upperize "FOO".data) = none ∧
    process_webhook_request settingsLive cfgSpec none (envAllOk filtersCenti 100) "FOO".data
      = failEarly none "unsupported_signal" := by
  refine ⟨by decide, by decide, ?_⟩
  unfold process_webhook_request
  rw [(by decide : mapSignal (upperize "FOO".data) = none)]

/-- C3 witness: concrete instances of the amended theorem — an unknown
token fails in the worker, and the intake decision does not change when
the token changes. -/
theorem C3_direction_mapping_witness :
    process_webhook_request settingsLive cfgSpec none (envAllOk filtersCenti 100) "HODL".data
      = failEarly none "unsupported_signal" ∧
    intakeEnqueues { payloadFoo with signal := "BUY".data } = intakeEnqueues payloadFoo := by
  have h := C3_direction_mapping_amended
  exact ⟨h.2.2.2.2.2.2.1 settingsLive cfgSpec none (envAllOk filtersCenti 100) "HODL".data
      (by decide),
    h.2.2.2.2.2.2.2 payloadFoo "BUY".data⟩

/-! ## Claim C9 — symbol normalization -/

/-- C9: the normalizer maps BINANCE:BTCUSDT.P to BTCUSDT (prefix before
the colon stripped, perpetual suffix stripped, upper-cased), and on
input ETHUSDT-PERP it does not produce the duplicated ETHUSDTUSDT (the
PERP suffix is stripped first, leaving ETHUSDT-). -/
theorem C9_symbol_normalization :
    normalize_tv_symbol "BINANCE:BTCUSDT.P".data = "BTCUSDT".data
    ∧ normalize_tv_symbol "ETHUSDT-PERP".data = "ETHUSDT-".data
    ∧ normalize_tv_symbol "ETHUSDT-PERP".data ≠ "ETHUSDTUSDT".data := by
  refine ⟨by decide, by decide, by decide⟩

/-! ## Claim C1 — enqueue ordering and durability -/

/-- Every member of a list of naturals is bounded by its foldr max. -/
theorem le_foldr_max (l : List ℕ) (x : ℕ) (hx : x ∈ l) : x ≤ l.foldr max 0 := by
  induction l with
  | nil => cases hx
  | cons a l ih =>
    rcases List.mem_cons.mp hx with h | h
    · subst h
      exact le_max_left _ _
    · exact le_trans (ih h) (le_max_right _ _)

/-- C1 (amended): enqueue pushes the item into the in-memory FIFO first
and unconditionally — the memory push precedes every DB write attempt —
and a background task then persists it with status pending under a
strictly larger id than every record on file (monotonically
increasing).  When all three write attempts fail the queue still holds
the item while the store is unchanged, so a FIFO item need not have a
persisted pending record. -/
theorem C1_enqueue_amended (queue : List ℕ) (item : ℕ) (db : List DbRec)
    (outcome : ℕ → Bool) :
    (webhook_queue_enqueue queue item db outcome).1 = queue ++ [item]
    ∧ (webhook_queue_enqueue queue item db outcome).2.2.head? = some EnqEvent.mem_push
    ∧ ((List.range 3).any outcome = true →
        (webhook_queue_enqueue queue item db outcome).2.1 =
          db ++ [{ id := nextId db, status := "pending", retry_count := 0 }])
    ∧ ((List.range 3).any outcome = false →
        (webhook_queue_enqueue queue item db outcome).2.1 = db)
    ∧ ∀ r ∈ db, r.id < nextId db := by
  refine ⟨rfl, rfl, ?_, ?_, ?_⟩
  · intro h
    unfold webhook_queue_enqueue
    simp [h]
  · intro h
    unfold webhook_queue_enqueue
    simp [h]
  · intro r hr
    have hle : r.id ≤ (db.map DbRec.id).foldr max 0 :=
      le_foldr_max _ _ (List.mem_map_of_mem DbRec.id hr)
    exact Nat.lt_succ_of_le hle

/-- C1 counterexample: with every DB write attempt failing, the item is
pushed into the FIFO first (before any attempt) and stays there while
no record is persisted — a queued item with no durable pending record,
refuting both the persist-first ordering and the FIFO/store invariant. -/
theorem C1_counterexample :
    (webhook_queue_enqueue [] 7 [] (fun _ => false)).1 = [7]
    ∧ (webhook_queue_enqueue [] 7 [] (fun _ => false)).2.1 = []
    ∧ (webhook_queue_enqueue [] 7 [] (fun _ => false)).2.2 =
        [EnqEvent.mem_push, EnqEvent.db_attempt false, EnqEvent.db_attempt false,
         EnqEvent.db_attempt false] := by
  refine ⟨rfl, by decide, by decide⟩

/-- C1 witness: with a succeeding write, the item is queued and the
persisted record carries status pending and the next id, larger than
the existing one. -/
theorem C1_enqueue_witness :
    (webhook_queue_enqueue [] 7 [⟨1, "completed", 0⟩] (fun _ => true)).1 = [7]
    ∧ (webhook_queue_enqueue [] 7 [⟨1, "completed", 0⟩] (fun _ => true)).2.1 =
        [⟨1, "completed", 0⟩, { id := 2, status := "pending", retry_count := 0 }]
    ∧ (1 : ℕ) < nextId [⟨1, "completed", 0⟩] := by
  have h := C1_enqueue_amended [] 7 [⟨1, "completed", 0⟩] (fun _ => true)
  refine ⟨h.1, ?_, ?_⟩
  · have h2 := h.2.2.1 (by decide)
    have hn : nextId [(⟨1, "completed", 0⟩ : DbRec)] = 2 := rfl
    rw [hn] at h2
    exact h2
  · exact h.2.2.2.2 ⟨1, "completed", 0⟩ (by simp)

/-! ## Claim C2 — retry policy -/

/-- Environment where the exchangeInfo call fails with a transient
(network) error. -/
def envNetDown : Env := { envAllOk filtersCenti 100 with exchange_info := .err }

/-- C2 (amended): only an exception escaping the processing routine
triggers re-queueing.  Below the ceiling the worker re-queues with
retry count + 1 after a 2 ^ retry_count backoff (the delay doubles per
attempt); at or past the ceiling the item is still re-queued — never
deleted — with its durable status set back to pending.  A transient
exchange failure caught inside processing (here: the exchangeInfo
call), however, returns a failure dict: the item is marked failed and
the worker does not re-queue it. -/
theorem C2_retry_policy_amended (r : RunResult) (rc : ℕ) :
    (r.raised = true → rc < max_retries →
        workerOnResult r rc = .requeue (rc + 1) (2 ^ rc))
    ∧ (r.raised = true → max_retries ≤ rc →
        workerOnResult r rc = .requeue_past_ceiling (rc + 1) "pending")
    ∧ (r.raised = false → workerOnResult r rc = .no_requeue)
    ∧ (∀ (s : Settings) (cfg : EndpointConfig) (dbPos : Option Position) (env : Env)
         (signal : PyStr) (sn : String × String),
        mapSignal (upperize signal) = some sn → cfg.enabled = true →
        sameDirectionSkip dbPos sn.2 = false → env.exchange_info = .err →
        process_webhook_request s cfg dbPos env signal = failEarly dbPos "exchange_info_error"
        ∧ workerOnResult (process_webhook_request s cfg dbPos env signal) rc
            = .no_requeue) := by
  refine ⟨?_, ?_, ?_, ?_⟩
  · intro hr hlt
    unfold workerOnResult
    rw [hr, if_pos rfl, if_pos hlt]
  · intro hr hge
    unfold workerOnResult
    rw [hr, if_pos rfl, if_neg (not_lt.mpr hge)]
  · intro hr
    unfold workerOnResult
    rw [hr]
    simp
  · intro s cfg dbPos env signal sn hsig hen hskip hex
    have hp : process_webhook_request s cfg dbPos env signal
        = failEarly dbPos "exchange_info_error" := by
      unfold process_webhook_request
      rw [hsig]
      simp [hen, hskip, hex]
    refine ⟨hp, ?_⟩
    rw [hp]
    unfold workerOnResult failEarly
    simp

/-- C2 counterexample: a transient exchangeInfo failure is handled
inside processing — the routine returns (raised = false) with the item
marked failed, and the worker performs no re-queue at all; the durable
status is failed, not pending. -/
theorem C2_counterexample :
    (process_webhook_request settingsLive cfgSpec none envNetDown "BUY".data).raised = false
    ∧ (process_webhook_request settingsLive cfgSpec none envNetDown "BUY".data).status
        = some "failed"
    ∧ workerOnResult (process_webhook_request settingsLive cfgSpec none envNetDown "BUY".data) 0
        = .no_requeue := by
  have hp : process_webhook_request settingsLive cfgSpec none envNetDown "BUY".data
      = failEarly none "exchange_info_error" := by
    unfold process_webhook_request
    rw [(by decide : mapSignal (upperize "BUY".data) = some ("BUY", "LONG"))]
    have h1 : cfgSpec.enabled = true := rfl
    have h2 : sameDirectionSkip none "LONG" = false := rfl
    have h3 : envNetDown.exchange_info = ExCall.err := rfl
    simp [h1, h2, h3]
  rw [hp]
  exact ⟨rfl, rfl, rfl⟩

/-- A processing result whose exception escaped the routine. -/
def raisedResult : RunResult :=
  { raised := true, success := false, order_id := none, error := none,
    status := some "processing", actions := [], ledger := none, bracket_warn := false }

/-- C2 witness: concrete instances — a raised exception at retry count
1 re-queues with count 2 after a 2 second backoff; at retry count 3 the
item is re-queued past the ceiling with status pending; the processing
routine with a failed exchangeInfo call is not re-queued. -/
theorem C2_retry_policy_witness :
    workerOnResult raisedResult 1 = WorkerEffect.requeue 2 2
    ∧ workerOnResult raisedResult 3 = WorkerEffect.requeue_past_ceiling 4 "pending"
    ∧ workerOnResult (process_webhook_request settingsLive cfgSpec none envNetDown
        "SELL".data) 5 = WorkerEffect.no_requeue := by
  have h1 := (C2_retry_policy_amended raisedResult 1).1 rfl (by decide)
  have h2 := (C2_retry_policy_amended raisedResult 3).2.1 rfl (by decide)
  have h3 := ((C2_retry_policy_amended (process_webhook_request settingsLive cfgSpec none
      envNetDown "SELL".data) 5).2.2.2 settingsLive cfgSpec none envNetDown "SELL".data
      ("SELL", "SHORT") (by decide) rfl rfl rfl).2
  exact ⟨h1, h2, h3⟩

/-! ## Claim C8 — startup recovery order -/

/-- Running the put instructions to the first suspension appends the
put items, in order, to the queue. -/
theorem runUntilYield_puts (l : List DbEvent) (st : StartState) :
    runUntilYield (l.map Instr.queue_put ++ [Instr.suspend_point]) st
      = { st with queue := st.queue ++ l } := by
  induction l generalizing st with
  | nil => simp [runUntilYield]
  | cons a l ih =>
    show runUntilYield (List.map Instr.queue_put l ++ [Instr.suspend_point])
        { queue := st.queue ++ [a], loop_created := st.loop_created } = _
    rw [ih]
    simp

/-- C8: at startup the worker loads exactly the pending rows of its own
endpoint into the in-memory FIFO, in ascending id order, and all loads
happen before the first suspension point — before the created loop task
can run — so the loop consumes them in exactly that order. -/
theorem C8_recovery_order (db : List DbEvent) (endpoint : String) :
    consumedOrder db endpoint = pendingQuery db endpoint
    ∧ List.Sorted byIdLe (consumedOrder db endpoint)
    ∧ ∀ v, v ∈ consumedOrder db endpoint ↔
        (v ∈ db ∧ v.status = "pending" ∧ v.endpoint = endpoint) := by
  have hco : consumedOrder db endpoint = pendingQuery db endpoint := by
    show (runUntilYield ((pendingQuery db endpoint).map Instr.queue_put ++ [Instr.suspend_point])
        { queue := [], loop_created := true }).queue = pendingQuery db endpoint
    rw [runUntilYield_puts]
    simp
  refine ⟨hco, ?_, ?_⟩
  · rw [hco]
    exact List.sorted_insertionSort byIdLe _
  · intro v
    rw [hco]
    unfold pendingQuery
    rw [(List.perm_insertionSort byIdLe _).mem_iff, List.mem_filter]
    simp

/-- Sample store contents: pending and completed rows of two
endpoints, out of id order. -/
def dbSample : List DbEvent :=
  [⟨3, "layer1", "pending"⟩, ⟨1, "layer2", "pending"⟩, ⟨2, "layer1", "completed"⟩,
   ⟨5, "layer1", "pending"⟩, ⟨4, "layer1", "pending"⟩]

/-- C8 witness: the layer1 worker recovers exactly its own pending rows
3, 4, 5 in ascending id order. -/
theorem C8_recovery_witness :
    consumedOrder dbSample "layer1" =
      [⟨3, "layer1", "pending"⟩, ⟨4, "layer1", "pending"⟩, ⟨5, "layer1", "pending"⟩]
    ∧ List.Sorted byIdLe (consumedOrder dbSample "layer1")
    ∧ ((⟨2, "layer1", "completed"⟩ : DbEvent) ∈ consumedOrder dbSample "layer1" ↔
        ((⟨2, "layer1", "completed"⟩ : DbEvent) ∈ dbSample
          ∧ ("completed" : String) = "pending" ∧ ("layer1" : String) = "layer1")) := by
  have h := C8_recovery_order dbSample "layer1"
  refine ⟨?_, h.2.1, h.2.2 ⟨2, "layer1", "completed"⟩⟩
  rw [h.1]
  decide
